import Mathlib

/-!
Verification of the access-control and admin-UI presentation predicates of the
`User` list configuration in `src/examples-next/auth/schema.ts`.

The predicates are arrow functions over a duck-typed `session` object and an
`item` record. We embed them shallowly:

* `JSVal` models the JavaScript values the predicates produce and compare:
  `undefined`, `null`, booleans and strings (identifiers).
* A session is `Option SessionObj`; `none` models a nullish (`null` or
  `undefined`) session — the two nullish values behave identically in every
  predicate here (both are falsy and both short-circuit `?.` and `&&`), so we
  collapse them and let the nullish result of a short-circuit be `undefined`.
* `SessionObj.data` is an `Option SessionData`, because the source types the
  session as `any` and several predicates access `session?.data.isAdmin`
  (optional-chaining on `session` only), so whether `data` is present matters.
* `GenericItem` is `{ id: string | number; [path: string]: any }`; the code
  reads `item.itemId`, an arbitrary extra property, so the embedding carries
  both `id` and the (possibly `undefined`) `itemId` property.
* A predicate invocation yields a `JSResult`: `ok v` for normal completion
  with value `v`, or `throws` for a `TypeError` raised by reading a property
  of `undefined` (e.g. `session.data.isAdmin` when `data` is absent).

Each `def` below is translated clause-by-clause from the arrow function named
in its doc comment.
-/

/-- The JavaScript values occurring in these predicates: `undefined`, `null`,
booleans, and strings (used for identifiers and the fieldMode enum). -/
inductive JSVal where
  | undef
  | nul
  | bool (b : Bool)
  | str (s : String)
deriving DecidableEq, Repr

/-- JavaScript truthiness for the values we model: `undefined`, `null`,
`false` and the empty string are falsy; everything else is truthy. -/
def JSVal.truthy : JSVal → Bool
  | .undef => false
  | .nul => false
  | .bool b => b
  | .str s => !s.isEmpty

/-- Whether a value is of boolean type (`typeof v === 'boolean'`). -/
def JSVal.isBool : JSVal → Bool
  | .bool _ => true
  | _ => false

/-- JavaScript strict equality `===` restricted to the values we model:
equal only when of the same type and equal there (`undefined === undefined`,
`null === null`, booleans and strings by value). -/
def jsStrictEq : JSVal → JSVal → Bool
  | .undef, .undef => true
  | .nul, .nul => true
  | .bool a, .bool b => a == b
  | .str a, .str b => a == b
  | _, _ => false

/-- The `session.data` object: `{ isAdmin: boolean, isEnabled: boolean }`. -/
structure SessionData where
  isAdmin : Bool
  isEnabled : Bool
deriving DecidableEq, Repr

/-- A present session object: `{ itemId, data }` where `data` may itself be
absent (the source types `Session` as `any` and guards only `session` with
optional chaining in several predicates, so the presence of `data` is
significant). -/
structure SessionObj where
  itemId : JSVal
  data : Option SessionData
deriving DecidableEq, Repr

/-- `type GenericItem = { id: string | number; [path: string]: any }`.
The predicates read `item.itemId`, an arbitrary extra property on the index
signature; an item with no such property has `itemId = undefined`. -/
structure GenericItem where
  id : JSVal
  itemId : JSVal
deriving DecidableEq, Repr

/-- Outcome of invoking a predicate: normal completion with a value, or a
raised `TypeError` (reading a property of `undefined`/`null`). -/
inductive JSResult where
  | ok (v : JSVal)
  | throws
deriving DecidableEq, Repr

/-- An access decision counts as an allow when the predicate completes
normally with a truthy value; a falsy value or an exception does not allow. -/
def allowsB : JSResult → Bool
  | .ok v => v.truthy
  | .throws => false

/-- An access decision counts as a deny when the predicate completes normally
with a falsy value. (A raised exception is an evaluation error, which the
framework surfaces as an operation failure, distinct from a deny.) -/
def deniesB : JSResult → Bool
  | .ok v => !v.truthy
  | .throws => false

/-- `User.access.delete`, schema.ts line 79:
`({ session }) => session?.data?.isAdmin`.
Every property access is guarded by `?.`, so the chain never throws: a
nullish `session` or absent `data` yields `undefined`. -/
def User_access_delete : Option SessionObj → JSResult
  | none => .ok .undef
  | some s =>
    match s.data with
    | none => .ok .undef
    | some d => .ok (.bool d.isAdmin)

/-- `User.admin.hideDelete`, schema.ts line 83:
`({ session }) => session?.data?.isAdmin` — textually the same chain as the
delete access predicate. -/
def User_admin_hideDelete : Option SessionObj → JSResult
  | none => .ok .undef
  | some s =>
    match s.data with
    | none => .ok .undef
    | some d => .ok (.bool d.isAdmin)

/-- `password.access.update`, schema.ts lines 102-103:
`({ session, item }) => session && (session.data.isAdmin || session.itemId === item.itemId)`.
A nullish session short-circuits `&&` and the nullish value is returned.
With a present session, `session.data.isAdmin` is read without optional
chaining, so an absent `data` raises a `TypeError`; otherwise the result is
the boolean `isAdmin || session.itemId === item.itemId`. Note the code
compares against the item property `itemId`, not `id`. -/
def password_access_update (session : Option SessionObj) (item : GenericItem) : JSResult :=
  match session with
  | none => .ok .undef
  | some s =>
    match s.data with
    | none => .throws
    | some d => .ok (.bool (d.isAdmin || jsStrictEq s.itemId item.itemId))

/-- `password.admin.itemView.fieldMode`, schema.ts lines 109-112:
`({ session, item }) => session && (session.data.isAdmin || session.itemId === item.itemId) ? 'edit' : 'hidden'`.
The condition is the same expression as `password.access.update`; a nullish
session makes it falsy (so `'hidden'`), an absent `data` raises, and
otherwise the boolean picks `'edit'` or `'hidden'`. -/
def password_itemView_fieldMode (session : Option SessionObj) (item : GenericItem) : JSResult :=
  match session with
  | none => .ok (.str "hidden")
  | some s =>
    match s.data with
    | none => .throws
    | some d =>
      .ok (.str (if d.isAdmin || jsStrictEq s.itemId item.itemId then "edit" else "hidden"))

/-- `isAdmin.access.update`, schema.ts line 120:
`({ session }) => session?.data.isAdmin`.
Optional chaining guards only `session`: a nullish session short-circuits the
whole chain to `undefined`, but a present session with absent `data` raises a
`TypeError` on `.isAdmin`. -/
def isAdmin_access_update : Option SessionObj → JSResult
  | none => .ok .undef
  | some s =>
    match s.data with
    | none => .throws
    | some d => .ok (.bool d.isAdmin)

/-- `isAdmin.admin.itemView.fieldMode`, schema.ts line 125:
`({ session }) => (session?.data.isAdmin ? 'edit' : 'read')`. -/
def isAdmin_itemView_fieldMode : Option SessionObj → JSResult
  | none => .ok (.str "read")
  | some s =>
    match s.data with
    | none => .throws
    | some d => .ok (.str (if d.isAdmin then "edit" else "read"))

/-- `isEnabled.access.update`, schema.ts line 133:
`({ session }) => session?.data.isAdmin` — same body as `isAdmin.access.update`. -/
def isEnabled_access_update : Option SessionObj → JSResult
  | none => .ok .undef
  | some s =>
    match s.data with
    | none => .throws
    | some d => .ok (.bool d.isAdmin)

/-- `isEnabled.admin.itemView.fieldMode`, schema.ts line 138:
`({ session }) => (session?.data.isAdmin ? 'edit' : 'read')`. -/
def isEnabled_itemView_fieldMode : Option SessionObj → JSResult
  | none => .ok (.str "read")
  | some s =>
    match s.data with
    | none => .throws
    | some d => .ok (.str (if d.isAdmin then "edit" else "read"))

/-- Spec-side formulation of the password update rule, for comparison with
the implementation: allowed iff the session is present and
(`session.data.isAdmin` or `session.itemId === item.id`) — note `item.id`,
the item's identity, where the implementation reads `item.itemId`. -/
def password_update_allowed_spec : Option SessionObj → GenericItem → Bool
  | none, _ => false
  | some s, item =>
    (match s.data with
     | none => false
     | some d => d.isAdmin) || jsStrictEq s.itemId item.id

/-- C1: the claim says `password.access.update` allows iff the session is
present and (`session.data.isAdmin` or `session.itemId === item.id`). The
code instead compares `session.itemId` with `item.itemId`, an arbitrary extra
property absent (`undefined`) on a plain item. At the self-service input —
session `{itemId:'u1', data:{isAdmin:false,isEnabled:true}}`, item
`{id:'u1'}` — the spec-side rule allows while the code evaluates to `false`
(deny), contradicting the code's own comment that users can change their own
passwords. -/
theorem C1_password_update_compares_itemId_not_id :
    password_update_allowed_spec (some ⟨.str "u1", some ⟨false, true⟩⟩)
      ⟨.str "u1", .undef⟩ = true ∧
    password_access_update (some ⟨.str "u1", some ⟨false, true⟩⟩)
      ⟨.str "u1", .undef⟩ = .ok (.bool false) := by
  decide

/-- C2: the claim (and the code's own comment) say `hideDelete` is true
unless the session is an admin. The code returns `session?.data?.isAdmin`
itself, which is the opposite: falsy (`undefined`) for an absent session —
so the delete UI is shown to anonymous users — and `true` exactly for
admins, hiding the delete UI from the only users allowed to delete. -/
theorem C2_hideDelete_inverted :
    User_admin_hideDelete none = .ok .undef ∧
    JSVal.truthy .undef = false ∧
    User_admin_hideDelete (some ⟨.str "u2", some ⟨true, true⟩⟩) = .ok (.bool true) := by
  decide

/-- C3 counterexample: the claim says no predicate throws when `session.data`
is null or undefined, but `isAdmin.access.update` is
`session?.data.isAdmin` — optional chaining guards only `session` — so a
present session with absent `data` raises a `TypeError`. -/
theorem C3_counterexample :
    isAdmin_access_update (some ⟨.str "u1", none⟩) = .throws := by
  decide

/-- C3 amended: only `delete` and `hideDelete` use the fully guarded chain
`session?.data?.isAdmin` and never throw. Every other predicate in the
configuration throws exactly when the session is present but its `data`
property is absent: the password predicates read `session.data.isAdmin`
behind a `session &&` guard, and the checkbox predicates use
`session?.data.isAdmin`, neither of which guards `data`. -/
theorem C3_throw_characterization (session : Option SessionObj) (item : GenericItem) :
    User_access_delete session ≠ .throws ∧
    User_admin_hideDelete session ≠ .throws ∧
    (password_access_update session item = .throws ↔
      ∃ s, session = some s ∧ s.data = none) ∧
    (password_itemView_fieldMode session item = .throws ↔
      ∃ s, session = some s ∧ s.data = none) ∧
    (isAdmin_access_update session = .throws ↔
      ∃ s, session = some s ∧ s.data = none) ∧
    (isEnabled_access_update session = .throws ↔
      ∃ s, session = some s ∧ s.data = none) ∧
    (isAdmin_itemView_fieldMode session = .throws ↔
      ∃ s, session = some s ∧ s.data = none) ∧
    (isEnabled_itemView_fieldMode session = .throws ↔
      ∃ s, session = some s ∧ s.data = none) := by
  rcases session with _ | ⟨itemId, _ | d⟩ <;>
    simp [User_access_delete, User_admin_hideDelete, password_access_update,
      password_itemView_fieldMode, isAdmin_access_update, isEnabled_access_update,
      isAdmin_itemView_fieldMode, isEnabled_itemView_fieldMode]

/-- C4: `delete` on the User list allows iff the session is present with
`data` present and `data.isAdmin = true`; every absent session, absent
`data`, or `isAdmin = false` yields a falsy result and is denied. -/
theorem C4_delete_allowed_iff_admin (session : Option SessionObj) :
    allowsB (User_access_delete session) = true ↔
      ∃ s d, session = some s ∧ s.data = some d ∧ d.isAdmin = true := by
  rcases session with _ | ⟨itemId, _ | d⟩ <;>
    simp [User_access_delete, allowsB, JSVal.truthy]

/-- C5: the update access predicates of `isAdmin` and `isEnabled` both allow
iff the session is present with `data` present and `data.isAdmin = true`; in
every other case they either evaluate to a falsy value (nullish session) or
raise (absent `data`), and in neither case allow. -/
theorem C5_admin_gated_updates (session : Option SessionObj) :
    (allowsB (isAdmin_access_update session) = true ↔
      ∃ s d, session = some s ∧ s.data = some d ∧ d.isAdmin = true) ∧
    (allowsB (isEnabled_access_update session) = true ↔
      ∃ s d, session = some s ∧ s.data = some d ∧ d.isAdmin = true) := by
  rcases session with _ | ⟨itemId, _ | d⟩ <;>
    simp [isAdmin_access_update, isEnabled_access_update, allowsB, JSVal.truthy]

/-- C6: presentation parity for the password field. Whenever
`password.access.update` denies (completes normally with a falsy value), the
password `itemView.fieldMode` function returns `'hidden'`; it returns
`'edit'` only when the update predicate allows, since both are the very same
condition `session && (session.data.isAdmin || session.itemId === item.itemId)`. -/
theorem C6_presentation_parity (session : Option SessionObj) (item : GenericItem)
    (h : deniesB (password_access_update session item) = true) :
    password_itemView_fieldMode session item = .ok (.str "hidden") := by
  rcases session with _ | ⟨itemId, _ | d⟩ <;>
    simp_all [password_access_update, password_itemView_fieldMode, deniesB, JSVal.truthy]

/-- C6 witness: with no session the update predicate denies and the fieldMode
is `'hidden'`. -/
theorem C6_presentation_parity_witness :
    password_itemView_fieldMode none ⟨.str "u1", .undef⟩ = .ok (.str "hidden") :=
  C6_presentation_parity none ⟨.str "u1", .undef⟩ (by decide)

/-- C7: the claim (spec scenario 7) says a non-admin session with itemId
`'u1'` viewing the item with id `'u1'` gets fieldMode `'edit'`. The code
compares `session.itemId` with `item.itemId`, which is absent (`undefined`)
on an item `{id:'u1'}`, so the fieldMode is `'hidden'` — contradicting the
code's own comment that the field is shown to users for themselves. -/
theorem C7_fieldMode_self_scenario :
    password_itemView_fieldMode (some ⟨.str "u1", some ⟨false, true⟩⟩)
      ⟨.str "u1", .undef⟩ = .ok (.str "hidden") := by
  decide

/-- C8: with an absent (nullish) session, every access predicate in the
configuration completes without throwing and evaluates to `undefined`, a
falsy value, so access is denied. (`delete` and the checkbox updates
short-circuit their whole `?.` chain; the password update short-circuits at
`session &&`, returning the nullish session value — falsy either way.) -/
theorem C8_absent_session_denies (item : GenericItem) :
    User_access_delete none = .ok .undef ∧
    password_access_update none item = .ok .undef ∧
    isAdmin_access_update none = .ok .undef ∧
    isEnabled_access_update none = .ok .undef ∧
    JSVal.truthy .undef = false :=
  ⟨rfl, rfl, rfl, rfl, rfl⟩

/-- C9 counterexample: the claim says every access predicate returns a
boolean. With an absent session, `User.access.delete` returns `undefined`
(the short-circuited `session?.data?.isAdmin` chain), which is not a
boolean. -/
theorem C9_counterexample :
    User_access_delete none = .ok .undef ∧ JSVal.isBool .undef = false := by
  decide

/-- C9 amended: each access predicate returns a boolean exactly when invoked
with a present session whose `data` is present (the four iffs). With a
nullish session all four evaluate, without throwing, to the non-boolean
falsy value `undefined` (the password predicate returns the nullish session
value itself); with a present session whose `data` is absent, `delete` still
yields `undefined` while the three field-level update predicates throw. -/
theorem C9_boolean_characterization (session : Option SessionObj) (item : GenericItem) :
    JSVal.isBool .undef = false ∧
    ((∃ b, User_access_delete session = .ok (.bool b)) ↔
      ∃ s d, session = some s ∧ s.data = some d) ∧
    ((∃ b, password_access_update session item = .ok (.bool b)) ↔
      ∃ s d, session = some s ∧ s.data = some d) ∧
    ((∃ b, isAdmin_access_update session = .ok (.bool b)) ↔
      ∃ s d, session = some s ∧ s.data = some d) ∧
    ((∃ b, isEnabled_access_update session = .ok (.bool b)) ↔
      ∃ s d, session = some s ∧ s.data = some d) ∧
    User_access_delete none = .ok .undef ∧
    password_access_update none item = .ok .undef ∧
    isAdmin_access_update none = .ok .undef ∧
    isEnabled_access_update none = .ok .undef ∧
    (∀ t : JSVal,
      User_access_delete (some ⟨t, none⟩) = .ok .undef ∧
      password_access_update (some ⟨t, none⟩) item = .throws ∧
      isAdmin_access_update (some ⟨t, none⟩) = .throws ∧
      isEnabled_access_update (some ⟨t, none⟩) = .throws) := by
  rcases session with _ | ⟨itemId, _ | d⟩ <;>
    simp [User_access_delete, password_access_update, isAdmin_access_update,
      isEnabled_access_update, JSVal.isBool]

/-- C10: neither the password update predicate nor its fieldMode function
reads the item's `id` property — both read only `item.itemId` — so any two
items agreeing on `itemId` produce identical results under every session. -/
theorem C10_password_ignores_id (session : Option SessionObj)
    (i1 i2 : GenericItem) (h : i1.itemId = i2.itemId) :
    password_access_update session i1 = password_access_update session i2 ∧
    password_itemView_fieldMode session i1 = password_itemView_fieldMode session i2 := by
  rcases session with _ | ⟨itemId, _ | d⟩ <;>
    simp [password_access_update, password_itemView_fieldMode, h]

/-- C10 witness: two items sharing `itemId = 'u1'` but with different `id`s
are indistinguishable to both password functions. -/
theorem C10_password_ignores_id_witness :
    password_access_update (some ⟨.str "u1", some ⟨false, true⟩⟩) ⟨.str "a", .str "u1"⟩ =
      password_access_update (some ⟨.str "u1", some ⟨false, true⟩⟩) ⟨.str "b", .str "u1"⟩ ∧
    password_itemView_fieldMode (some ⟨.str "u1", some ⟨false, true⟩⟩) ⟨.str "a", .str "u1"⟩ =
      password_itemView_fieldMode (some ⟨.str "u1", some ⟨false, true⟩⟩) ⟨.str "b", .str "u1"⟩ :=
  C10_password_ignores_id (some ⟨.str "u1", some ⟨false, true⟩⟩)
    ⟨.str "a", .str "u1"⟩ ⟨.str "b", .str "u1"⟩ rfl
